import Mathlib

/-!
Verification of the query/cache layer of `react-gift-product-detail`
(`src/hooks/queries.ts`, current revision, and an earlier revision of the
same module). The definitions below are shallow embeddings of the pure
content of that module: the cache-key registry, the infinite-query
next-cursor rule, the order-creation success/error handlers, the product
read hooks, and the optimistic wish-toggle mutation lifecycle
(`onMutate` / `onError` / `onSettled`). Cache state is passed explicitly;
side effects (toasts, alerts, navigation, session storage, invalidation)
are reified as an `Effect` list in the order the handlers perform them.
JavaScript `null`/`undefined` is `Option`, JS numbers are `Int` (or `Nat`
for cursors/lengths), and JS string-falsiness (`||`) is modelled explicitly.
-/

/-- A cache-key segment: react-query keys in this module are arrays of
strings and numbers (`string | number`). -/
inductive Seg where
  | str (v : String)
  | num (v : Int)
deriving DecidableEq, Repr

/-- A `string | number` identifier parameter, as accepted by the key
functions (`themeId`, `productId`). -/
inductive Ident where
  | s (v : String)
  | n (v : Int)
deriving DecidableEq, Repr

/-- Embedding of an identifier as a key segment. -/
def Ident.toSeg : Ident → Seg
  | .s v => .str v
  | .n v => .num v

/-- The key families registered in the `queries` object of
`src/hooks/queries.ts` (lines 25-70), with their parameters. -/
inductive QueryFamily where
  | themes
  | themeInfo (id : Ident)
  | themeProducts (id : Ident)
  | rankingProducts (targetType rankType : String)
  | product (id : Ident)
  | productDetail (id : Ident)
  | productReviews (id : Ident)
  | productWish (id : Ident)
  | products
deriving DecidableEq, Repr

/-- The key produced for each family, transcribed from the `key` fields of
the `queries` object: `['themes']`, `['themes', id, 'info']`,
`['themes', id, 'products']`, `['products', 'ranking', t, r]`,
`['products', id]`, `['products', id, 'detail']`, `['products', id,
'reviews']`, `['products', id, 'wish']`, `['products']`. -/
def keyOf : QueryFamily → List Seg
  | .themes => [.str "themes"]
  | .themeInfo id => [.str "themes", id.toSeg, .str "info"]
  | .themeProducts id => [.str "themes", id.toSeg, .str "products"]
  | .rankingProducts t r => [.str "products", .str "ranking", .str t, .str r]
  | .product id => [.str "products", id.toSeg]
  | .productDetail id => [.str "products", id.toSeg, .str "detail"]
  | .productReviews id => [.str "products", id.toSeg, .str "reviews"]
  | .productWish id => [.str "products", id.toSeg, .str "wish"]
  | .products => [.str "products"]

/-- The `ProductWish` entity: `{ wishCount, isWished }`. -/
structure ProductWish where
  wishCount : Int
  isWished : Bool
deriving DecidableEq, Repr

/-- Optimistic cache updater for the individual `productWish` entry in the
CURRENT revision (`src/hooks/queries.ts` lines 301-312): on a missing entry
it returns `{ wishCount: 0, isWished: false }` unchanged (no flip applied);
otherwise it flips the INPUT `isWished` and increments/decrements based on
the INPUT `isWished` (not the cached `isWished`). -/
def toggleWishUpdaterCurrent (isWished : Bool) (old : Option ProductWish) : ProductWish :=
  match old with
  | none => { wishCount := 0, isWished := false }
  | some o =>
      { o with
        isWished := !isWished
        wishCount := if isWished then o.wishCount - 1 else o.wishCount + 1 }

/-- Optimistic cache updater for the individual `productWish` entry in the
PRIOR revision (unnamed earlier file, lines 279-290); textually the same
updater as the current revision. -/
def toggleWishUpdaterPrior (isWished : Bool) (old : Option ProductWish) : ProductWish :=
  match old with
  | none => { wishCount := 0, isWished := false }
  | some o =>
      { o with
        isWished := !isWished
        wishCount := if isWished then o.wishCount - 1 else o.wishCount + 1 }

/-- Cache state affected by the wish toggle in the CURRENT revision: the
individual `productWish` entry, plus the other per-product entries
(`product`, `productDetail`, `productReviews`) which `onMutate` snapshots
but never rewrites; they are kept abstract as `others`. -/
structure CacheCurrent (α : Type) where
  wish : Option ProductWish
  others : α
deriving DecidableEq, Repr

/-- The context object returned by `onMutate` in the CURRENT revision
(lines 318-323): snapshots of the wish entry and of the other per-product
entries. -/
structure WishContextCurrent (α : Type) where
  previousWish : Option ProductWish
  previousOthers : α
deriving DecidableEq, Repr

/-- `onMutate` of `useToggleWishMutation`, CURRENT revision (lines
273-324): snapshot the four entries, then rewrite ONLY the individual
`productWish` entry with the optimistic updater. Returns the new cache
state and the snapshot context. -/
def toggleWish_onMutate {α : Type} (isWished : Bool) (c : CacheCurrent α) :
    CacheCurrent α × WishContextCurrent α :=
  ({ c with wish := some (toggleWishUpdaterCurrent isWished c.wish) },
   { previousWish := c.wish, previousOthers := c.others })

/-- `onError` of `useToggleWishMutation`, CURRENT revision (lines 325-335):
restore the wish entry from the snapshot only when `context.previousWish`
is truthy (i.e. a prior entry existed); the other entries are never
restored. -/
def toggleWish_onError {α : Type} (ctx : WishContextCurrent α) (c : CacheCurrent α) :
    CacheCurrent α :=
  match ctx.previousWish with
  | some prev => { c with wish := some prev }
  | none => c

/-- `onSettled` of `useToggleWishMutation`, CURRENT revision (line 336):
the handler body is empty, so the cache is unchanged and no effects (in
particular no invalidation) are produced. -/
def toggleWish_onSettled {α : Type} (c : CacheCurrent α) : CacheCurrent α × List Unit :=
  (c, [])

/-- The stub result type of the wish-toggle remote call. -/
structure ToggleWishResult where
  success : Bool
deriving DecidableEq, Repr

/-- `mutationFn` of `useToggleWishMutation` (both revisions): a stub that
ignores its input and always reports success. -/
def toggleWish_mutationFn (_productId : Int) (_isWished : Bool) : ToggleWishResult :=
  { success := true }

/-- The aggregate `['productPage', productId]` cache payload maintained by
the PRIOR revision: the bundled product/detail/review data (abstract here)
plus the embedded wish sub-object, which the optimistic updater reads
defensively (`old.wishData?.wishCount || 0`), hence `Option`. -/
structure ProductPageData (π : Type) where
  rest : π
  wishData : Option ProductWish
deriving DecidableEq, Repr

/-- JavaScript `wishData?.wishCount || 0`: the embedded wish count, with a
missing sub-object defaulting to `0` (a stored count of `0` is falsy and
also yields `0`). -/
def jsWishCount (w : Option ProductWish) : Int :=
  match w with
  | some x => x.wishCount
  | none => 0

/-- The new embedded wish sub-object written into the aggregate entry by
the PRIOR revision's `onMutate` (lines 292-304): flip of the INPUT
`isWished`, count adjusted from the defensively defaulted current count. -/
def productPageWishRewrite {π : Type} (isWished : Bool) (old : ProductPageData π) :
    ProductWish :=
  { isWished := !isWished
    wishCount :=
      if isWished then jsWishCount old.wishData - 1 else jsWishCount old.wishData + 1 }

/-- Optimistic updater for the aggregate `productPage` entry, PRIOR
revision: `if (!old) return old;` leaves a missing aggregate missing;
otherwise the embedded wish sub-object is rewritten and the rest spread
unchanged. -/
def productPageUpdaterPrior {π : Type} (isWished : Bool) :
    Option (ProductPageData π) → Option (ProductPageData π)
  | none => none
  | some o => some { o with wishData := some (productPageWishRewrite isWished o) }

/-- Cache state affected by the wish toggle in the PRIOR revision: the
individual `productWish` entry and the aggregate `productPage` entry. -/
structure CachePrior (π : Type) where
  wish : Option ProductWish
  productPage : Option (ProductPageData π)
deriving DecidableEq, Repr

/-- The context object returned by `onMutate` in the PRIOR revision (line
306): snapshots of the wish entry and the aggregate entry. -/
structure WishContextPrior (π : Type) where
  previousWish : Option ProductWish
  previousProductPage : Option (ProductPageData π)
deriving DecidableEq, Repr

/-- `onMutate` of `useToggleWishMutation`, PRIOR revision (lines 262-307):
snapshot both entries, rewrite the individual wish entry, and rewrite the
embedded wish sub-object of the aggregate entry. -/
def toggleWish_onMutatePrior {π : Type} (isWished : Bool) (c : CachePrior π) :
    CachePrior π × WishContextPrior π :=
  ({ wish := some (toggleWishUpdaterPrior isWished c.wish)
     productPage := productPageUpdaterPrior isWished c.productPage },
   { previousWish := c.wish, previousProductPage := c.productPage })

/-- `onError` of `useToggleWishMutation`, PRIOR revision (lines 308-323):
restore each of the two entries from its snapshot, each only when the
snapshot is truthy (a prior value existed). -/
def toggleWish_onErrorPrior {π : Type} (ctx : WishContextPrior π) (c : CachePrior π) :
    CachePrior π :=
  let c1 :=
    match ctx.previousWish with
    | some prev => { c with wish := some prev }
    | none => c
  match ctx.previousProductPage with
  | some prev => { c1 with productPage := some prev }
  | none => c1

/-- A page of the paginated theme-products response:
`{ items, hasMoreList }`. Item payloads are opaque to the cursor logic. -/
structure ThemeProductsResponse (τ : Type) where
  items : List τ
  hasMoreList : Bool
deriving DecidableEq, Repr

/-- `getNextPageParam` of `useThemeProductsInfiniteQuery` (lines 175-181):
`currentCursor = allPages.length * limit`; the cursor is produced only when
the last page's `hasMoreList` is true, else `undefined` (here `none`),
which stops further fetching. -/
def getNextPageParam {τ : Type} (lastPage : ThemeProductsResponse τ)
    (allPages : List (ThemeProductsResponse τ)) (limit : Nat) : Option Nat :=
  let currentCursor := allPages.length * limit
  if lastPage.hasMoreList then some currentCursor else none

/-- Resolution of the hook's `limit` parameter: the signature
`limit: number = 20` (line 166) defaults an unspecified limit to 20. -/
def resolveThemeProductsLimit : Option Nat → Nat
  | some l => l
  | none => 20

/-- `initialPageParam: 0` (line 182). -/
def themeProductsInitialPageParam : Nat := 0

/-- Side effects performed by the order-creation handlers, reified in
execution order: toast notifications, the error-store write, session-store
removal, navigation, prefix invalidation, and the confirmation alert. -/
inductive Effect where
  | toastError (msg : String)
  | setError (msg : String)
  | removeSession (key : String)
  | navigate (path : String)
  | invalidate (keyPrefix : List Seg)
  | alert (msg : String)
deriving DecidableEq, Repr

/-- The error object seen by `useCreateOrderMutation.onError`: `error?.status`
and `error.message` may each be absent. -/
structure OrderError where
  status : Option Int
  message : Option String
deriving DecidableEq, Repr

/-- JavaScript `m || fallback` on an optional string: an absent or empty
(falsy) message yields the fallback. -/
def jsOr (m : Option String) (fallback : String) : String :=
  match m with
  | some s => if s = "" then fallback else s
  | none => fallback

/-- `onError` of `useCreateOrderMutation` (lines 243-256). The current
path is the raw `window.location.pathname`; `encode` stands for the
browser's `encodeURIComponent`, an external boundary. -/
def createOrder_onError (encode : String → String) (e : OrderError)
    (currentPath : String) : List Effect :=
  if e.status = some 400 then
    [Effect.toastError "받는 사람이 없습니다"]
  else if e.status = some 401 then
    [Effect.setError "로그인이 필요합니다.",
     Effect.removeSession "userInfo",
     Effect.navigate ("/login?redirect=" ++ encode currentPath)]
  else
    [Effect.toastError (jsOr e.message "주문에 실패했습니다.")]

/-- A receiver entry of a `GiftOrderForm`; only `quantity` is read by the
success handler. -/
structure Receiver where
  quantity : Int
deriving DecidableEq, Repr

/-- The order form fields read by `useCreateOrderMutation.onSuccess`. -/
structure GiftOrderForm where
  productId : Int
  receivers : List Receiver
  ordererName : String
  message : String
deriving DecidableEq, Repr

/-- `variables.receivers.reduce((sum, r) => sum + r.quantity, 0)`
(lines 224-227). -/
def totalQuantity (receivers : List Receiver) : Int :=
  receivers.foldl (fun sum r => sum + r.quantity) 0

/-- The confirmation alert text built at lines 229-239. -/
def orderSuccessMessage (v : GiftOrderForm) : String :=
  "주문이 완료되었습니다." ++ "\n상품명: " ++ toString v.productId ++
    "\n구매 수량: " ++ toString (totalQuantity v.receivers) ++
    "\n발신자 이름: " ++ v.ordererName ++ "\n메시지: " ++ v.message

/-- `onSuccess` of `useCreateOrderMutation` (lines 221-242), in execution
order: invalidate the `['products']` prefix, alert the confirmation, then
navigate to the home route. -/
def createOrder_onSuccess (v : GiftOrderForm) : List Effect :=
  [Effect.invalidate (keyOf QueryFamily.products),
   Effect.alert (orderSuccessMessage v),
   Effect.navigate "/"]

/-- Whether an effect is a navigation. -/
def isNavigateEffect : Effect → Bool
  | .navigate _ => true
  | _ => false

/-- `useSuspenseProductQuery`, PRIOR revision (lines 96-107): after the
remote lookup, a falsy (`null`) product is turned into a thrown
`Error('존재하지 않는 상품입니다')`; a present product is returned. -/
def useSuspenseProductQueryPrior {α : Type} (product : Option α) : Except String α :=
  match product with
  | none => Except.error "존재하지 않는 상품입니다"
  | some p => Except.ok p

/-- `useSuspenseProductQuery`, CURRENT revision (lines 103-108): the
remote lookup result is returned as-is, with no absence check and no
throw. -/
def useSuspenseProductQueryCurrent {α : Type} (product : Option α) :
    Except String (Option α) :=
  Except.ok product

/-- The bundled result of the PRIOR revision's `useProductPageDataQuery`
query function (lines 128-151); the detail/review payloads are opaque. -/
structure ProductPageResultPrior (α δ ρ : Type) where
  product : α
  productDetail : δ
  reviewData : ρ
  wishData : ProductWish
deriving DecidableEq, Repr

/-- Query function of `useProductPageDataQuery`, PRIOR revision (lines
131-149): fetch the four payloads, then throw
`Error('존재하지 않는 상품입니다')` when the product is falsy, else bundle
the four into one aggregate payload. -/
def productPageQueryFnPrior {α δ ρ : Type} (product : Option α) (detail : δ)
    (review : ρ) (wish : ProductWish) : Except String (ProductPageResultPrior α δ ρ) :=
  match product with
  | none => Except.error "존재하지 않는 상품입니다"
  | some p => Except.ok { product := p, productDetail := detail, reviewData := review, wishData := wish }

/-- The record returned by `useProductPageDataQuery`, CURRENT revision
(lines 129-134): each field is typed nullable and passed through. -/
structure ProductPageResultCurrent (α δ ρ : Type) where
  product : Option α
  productDetail : Option δ
  reviewData : Option ρ
  wishData : Option ProductWish
deriving DecidableEq, Repr

/-- `useProductPageDataQuery`, CURRENT revision (lines 129-162): four
independent suspense queries; their data — the product possibly `null` —
is returned directly, with no absence check and no throw. -/
def useProductPageDataQueryCurrent {α δ ρ : Type} (product : Option α)
    (detail : Option δ) (review : Option ρ) (wish : Option ProductWish) :
    ProductPageResultCurrent α δ ρ :=
  { product := product, productDetail := detail, reviewData := review, wishData := wish }

/-- Claim C1: toggling with an input `isWished` equal to the cached
pre-toggle state `w` over a cached entry `{wishCount := c, isWished := w}`
leaves, immediately after the optimistic phase, the cached entry at
`{wishCount := c - 1 if w else c + 1, isWished := !w}` with the other
per-product entries untouched; the stub remote call always succeeds, and
`onSettled` changes nothing and produces no effect, so the entry still
reads the same value after settle. -/
theorem toggleWish_success_path (α : Type) (c : Int) (w : Bool) (others : α) (pid : Int) :
    ((toggleWish_onMutate w { wish := some { wishCount := c, isWished := w }, others := others }).1.wish
      = some { wishCount := if w then c - 1 else c + 1, isWished := !w }) ∧
    ((toggleWish_onMutate w { wish := some { wishCount := c, isWished := w }, others := others }).1.others
      = others) ∧
    (toggleWish_mutationFn pid w).success = true ∧
    (toggleWish_onSettled
        (toggleWish_onMutate w { wish := some { wishCount := c, isWished := w }, others := others }).1
      = ((toggleWish_onMutate w { wish := some { wishCount := c, isWished := w }, others := others }).1,
         [])) :=
  ⟨rfl, rfl, rfl, rfl⟩

/-- Claim C2 counterexample: starting from a cache with NO `productWish`
entry and toggling with `isWished := false`, running `onMutate` and then
the failure handler `onError` does not restore the pre-toggle state: the
seeded `{wishCount := 0, isWished := false}` entry survives the rollback,
so the cache differs from its pre-toggle (absent) value. -/
theorem toggleWish_rollback_missing_entry_cex :
    (toggleWish_onError
        (toggleWish_onMutate false ({ wish := none, others := () } : CacheCurrent Unit)).2
        (toggleWish_onMutate false ({ wish := none, others := () } : CacheCurrent Unit)).1)
      ≠ ({ wish := none, others := () } : CacheCurrent Unit) := by
  decide

/-- Claim C2, amended: when a `productWish` entry WAS cached before the
toggle, the failure handler restores the cache exactly to its pre-toggle
state, in both revisions (in the prior revision the aggregate
`productPage` entry is likewise restored exactly, whether present or
absent); when no wish entry was cached, the optimistically seeded entry is
not rolled back (see the counterexample). -/
theorem toggleWish_rollback_exact (α π : Type) (pw : ProductWish) (input : Bool)
    (others : α) (page : Option (ProductPageData π)) :
    (toggleWish_onError
        (toggleWish_onMutate input { wish := some pw, others := others }).2
        (toggleWish_onMutate input { wish := some pw, others := others }).1
      = { wish := some pw, others := others }) ∧
    (toggleWish_onErrorPrior
        (toggleWish_onMutatePrior input { wish := some pw, productPage := page }).2
        (toggleWish_onMutatePrior input { wish := some pw, productPage := page }).1
      = { wish := some pw, productPage := page }) := by
  refine ⟨rfl, ?_⟩
  cases page <;> rfl

/-- Claim C3 counterexample: toggling `{isWished := false}` with nothing
cached leaves the entry at `{wishCount := 0, isWished := false}` — the
seeded baseline is returned without the flip/count rule — and not at the
claimed `{wishCount := 1, isWished := true}`. -/
theorem toggleWish_noEntry_cex :
    ((toggleWish_onMutate false ({ wish := none, others := () } : CacheCurrent Unit)).1.wish
      = some { wishCount := 0, isWished := false }) ∧
    ((toggleWish_onMutate false ({ wish := none, others := () } : CacheCurrent Unit)).1.wish
      ≠ some { wishCount := 1, isWished := true }) := by
  decide

/-- Claim C3, amended: toggling with no prior cached entry seeds the entry
with `{wishCount := 0, isWished := false}` and returns it as-is — the
flip/count rule is NOT applied on top of the seed — in both revisions, for
every input `isWished`. -/
theorem toggleWish_noEntry_seeded (α π : Type) (others : α) (input : Bool)
    (page : Option (ProductPageData π)) :
    ((toggleWish_onMutate input { wish := none, others := others }).1.wish
      = some { wishCount := 0, isWished := false }) ∧
    ((toggleWish_onMutatePrior input { wish := none, productPage := page }).1.wish
      = some { wishCount := 0, isWished := false }) :=
  ⟨rfl, rfl⟩

/-- Claim C4 counterexample: over the cached entry
`{wishCount := 0, isWished := false}` — a not-wished pre-toggle state —
the optimistic rewrite with input `isWished := true` still decrements and
produces a negative `wishCount` of `-1`. -/
theorem toggleWish_negative_count_cex :
    (toggleWishUpdaterCurrent true (some { wishCount := 0, isWished := false })).wishCount < 0 := by
  decide

/-- Claim C4, amended: the optimistic rewrite decrements exactly when the
INPUT `isWished` is true (not when the cached state was wished), so
`wishCount` stays non-negative only under the assumptions that the cached
count is non-negative and that an input of `true` comes with a cached
count of at least 1; under those assumptions the rewritten individual
entry, the seeded no-entry case, and the prior revision's embedded
aggregate rewrite (whose defensively defaulted count equals `c`) are all
non-negative. -/
theorem toggleWish_count_nonneg (c : Int) (w input : Bool)
    (hc : 0 ≤ c) (hdec : input = true → 1 ≤ c) :
    (0 ≤ (toggleWishUpdaterCurrent input (some { wishCount := c, isWished := w })).wishCount) ∧
    (0 ≤ (toggleWishUpdaterCurrent input none).wishCount) ∧
    ∀ (π : Type) (page : ProductPageData π), jsWishCount page.wishData = c →
      0 ≤ (productPageWishRewrite input page).wishCount := by
  refine ⟨?_, by simp [toggleWishUpdaterCurrent], ?_⟩
  · cases input with
    | false => simp [toggleWishUpdaterCurrent]; omega
    | true => have := hdec rfl; simp [toggleWishUpdaterCurrent]; omega
  · intro π page hpc
    cases input with
    | false => simp [productPageWishRewrite, hpc]; omega
    | true => have := hdec rfl; simp [productPageWishRewrite, hpc]; omega

/-- Claim C4 witness: the amended non-negativity applied at the concrete
cached entry `{wishCount := 5, isWished := true}` with input `true`. -/
theorem toggleWish_count_nonneg_witness :
    0 ≤ (toggleWishUpdaterCurrent true (some { wishCount := 5, isWished := true })).wishCount :=
  (toggleWish_count_nonneg 5 true true (by decide) (fun _ => by decide)).1

/-- Claim C10: for every input `isWished` and every prior value of the
individual `productWish` entry, the optimistic updaters of the two
revisions compute the same new value, and the two `onMutate` phases write
that same value to the individual `productWish` entry. -/
theorem toggleWish_onMutate_revisions_agree (α π : Type) (input : Bool)
    (old : Option ProductWish) (others : α) (page : Option (ProductPageData π)) :
    (toggleWishUpdaterCurrent input old = toggleWishUpdaterPrior input old) ∧
    ((toggleWish_onMutate input { wish := old, others := others }).1.wish
      = (toggleWish_onMutatePrior input { wish := old, productPage := page }).1.wish) := by
  cases old <;> exact ⟨rfl, rfl⟩

/-- Claim C5: the next cursor is pure offset arithmetic — when the last
page's `hasMoreList` is true the cursor for the next request is
`pageCount * limit` (depending on nothing server-returned beyond the
boolean); when `hasMoreList` is false no cursor is produced (`none`), so
no further page is fetched; an unspecified `limit` defaults to 20; and
with `limit = 20` and 3 fetched pages the next cursor is 60. -/
theorem themeProducts_nextCursor (τ : Type) (lastPage : ThemeProductsResponse τ)
    (allPages : List (ThemeProductsResponse τ)) (limit : Nat) :
    (lastPage.hasMoreList = true →
      getNextPageParam lastPage allPages limit = some (allPages.length * limit)) ∧
    (lastPage.hasMoreList = false →
      getNextPageParam lastPage allPages limit = none) ∧
    resolveThemeProductsLimit none = 20 ∧
    (lastPage.hasMoreList = true → allPages.length = 3 → limit = 20 →
      getNextPageParam lastPage allPages limit = some 60) := by
  refine ⟨fun h => by simp [getNextPageParam, h],
          fun h => by simp [getNextPageParam, h], rfl, ?_⟩
  intro h h3 hl
  simp [getNextPageParam, h, h3, hl]

/-- Claim C5 witness: three fetched pages at the default limit of 20, with
more data available, yield the cursor 60 for the fourth request. -/
theorem themeProducts_nextCursor_witness :
    getNextPageParam ({ items := [], hasMoreList := true } : ThemeProductsResponse Unit)
      [{ items := [], hasMoreList := true }, { items := [], hasMoreList := true },
       { items := [], hasMoreList := true }] (resolveThemeProductsLimit none) = some 60 :=
  (themeProducts_nextCursor Unit _ _ _).2.2.2 rfl rfl rfl

/-- Claim C6: the order-creation failure handler classifies by the error's
status. Status 400 produces exactly the "no receivers" toast; status 401
produces exactly the error-store write, the session-store removal, and the
navigation to the login route carrying the encoded current path; any other
status produces exactly the generic toast with the server message when
present (and non-empty) else the fixed fallback; and in every non-401
branch no navigation and no invalidation occurs. -/
theorem createOrder_onError_classification (encode : String → String)
    (e : OrderError) (path : String) :
    (e.status = some 400 →
      createOrder_onError encode e path = [Effect.toastError "받는 사람이 없습니다"]) ∧
    (e.status = some 401 →
      createOrder_onError encode e path =
        [Effect.setError "로그인이 필요합니다.",
         Effect.removeSession "userInfo",
         Effect.navigate ("/login?redirect=" ++ encode path)]) ∧
    (e.status ≠ some 400 → e.status ≠ some 401 →
      createOrder_onError encode e path
        = [Effect.toastError (jsOr e.message "주문에 실패했습니다.")]) ∧
    (e.status ≠ some 401 →
      (∀ p, Effect.navigate p ∉ createOrder_onError encode e path) ∧
      (∀ k, Effect.invalidate k ∉ createOrder_onError encode e path)) := by
  by_cases h4 : e.status = some 400
  · have h1 : e.status ≠ some 401 := by simp [h4]
    refine ⟨fun _ => by simp [createOrder_onError, h4],
            fun h => absurd h h1,
            fun hn _ => absurd h4 hn,
            fun _ => ⟨fun p => ?_, fun k => ?_⟩⟩ <;>
      simp [createOrder_onError, h4]
  · by_cases h1 : e.status = some 401
    · refine ⟨fun h => absurd h h4,
              fun _ => by simp [createOrder_onError, h4, h1],
              fun _ hn => absurd h1 hn,
              fun hn => absurd h1 hn⟩
    · refine ⟨fun h => absurd h h4,
              fun h => absurd h h1,
              fun _ _ => by simp [createOrder_onError, h4, h1],
              fun _ => ⟨fun p => ?_, fun k => ?_⟩⟩ <;>
        simp [createOrder_onError, h4, h1]

/-- Claim C6 witness: a failure with status 400 produces exactly the
"no receivers" toast, with no navigation and no invalidation. -/
theorem createOrder_onError_classification_witness :
    createOrder_onError id { status := some 400, message := none } "/order/1"
      = [Effect.toastError "받는 사람이 없습니다"] :=
  (createOrder_onError_classification id { status := some 400, message := none } "/order/1").1 rfl

/-- Helper: the left fold computing the order's total quantity equals the
accumulator plus the sum of the receivers' quantities. -/
theorem totalQuantity_foldl_eq (receivers : List Receiver) (a : Int) :
    receivers.foldl (fun sum r => sum + r.quantity) a
      = a + (receivers.map Receiver.quantity).sum := by
  induction receivers generalizing a with
  | nil => simp
  | cons r rs ih => simp [List.foldl_cons, ih]; ring

/-- Claim C7: the order-creation success handler produces, in order, the
invalidation of the whole `['products']` prefix, the confirmation alert,
and the navigation to the home route; the confirmation's total quantity is
the sum of the receivers' quantities (receivers with quantities 2 and 3
total 5); and the navigation to home occurs exactly once, after the
confirmation. -/
theorem createOrder_onSuccess_spec (v : GiftOrderForm) :
    (createOrder_onSuccess v =
      [Effect.invalidate (keyOf QueryFamily.products),
       Effect.alert (orderSuccessMessage v),
       Effect.navigate "/"]) ∧
    (totalQuantity v.receivers = (v.receivers.map Receiver.quantity).sum) ∧
    ((createOrder_onSuccess v).filter isNavigateEffect = [Effect.navigate "/"]) ∧
    totalQuantity [{ quantity := 2 }, { quantity := 3 }] = 5 :=
  ⟨rfl, by simpa [totalQuantity] using totalQuantity_foldl_eq v.receivers 0, rfl, by decide⟩

/-- Claim C8 counterexample: in the current revision, a `null` product
lookup is returned successfully — `useSuspenseProductQuery` yields
`Except.ok none` and the combined product-page read returns a record whose
`product` field is `none` — instead of throwing a NotFound error. -/
theorem productRead_current_returns_null_cex :
    (useSuspenseProductQueryCurrent (none : Option Unit) = Except.ok none) ∧
    ((useProductPageDataQueryCurrent (none : Option Unit) (none : Option Unit)
        (none : Option Unit) none).product = none) :=
  ⟨rfl, rfl⟩

/-- Claim C8, amended: only the PRIOR revision surfaces an absent product
as a thrown NotFound error (`'존재하지 않는 상품입니다'`), in both its
product query and its combined product-page query function; the CURRENT
revision's product query and combined read return the (possibly absent)
lookup result successfully, with no throw. -/
theorem productRead_notFound_behavior (α δ ρ : Type) (p : α) (prodOpt : Option α)
    (detail : δ) (review : ρ) (wish : ProductWish)
    (dOpt : Option δ) (rOpt : Option ρ) (wOpt : Option ProductWish) :
    (useSuspenseProductQueryPrior (none : Option α)
      = Except.error "존재하지 않는 상품입니다") ∧
    (useSuspenseProductQueryPrior (some p) = Except.ok p) ∧
    (productPageQueryFnPrior (none : Option α) detail review wish
      = Except.error "존재하지 않는 상품입니다") ∧
    (useSuspenseProductQueryCurrent prodOpt = Except.ok prodOpt) ∧
    ((useProductPageDataQueryCurrent prodOpt dOpt rOpt wOpt).product = prodOpt) :=
  ⟨rfl, rfl, rfl, rfl, rfl⟩

/-- Helper: embedding identifiers as key segments is injective. -/
@[simp]
theorem Ident.toSeg_inj (a b : Ident) : a.toSeg = b.toSeg ↔ a = b := by
  cases a <;> cases b <;> simp [Ident.toSeg]

/-- Claim C9: the key registry is deterministic — repeated evaluations of
`keyOf` on the same family and parameters are equal — and injective: two
family/parameter combinations produce equal keys exactly when they are the
same combination. -/
theorem queries_key_deterministic_injective :
    (∀ f : QueryFamily, keyOf f = keyOf f) ∧
    ∀ f g : QueryFamily, keyOf f = keyOf g ↔ f = g := by
  refine ⟨fun f => rfl, fun f g => ⟨fun h => ?_, fun h => by rw [h]⟩⟩
  cases f <;> cases g <;> simp_all [keyOf]

/-- Claim C9 witness: determinism and injectivity evaluated at concrete
keys — `productWish 1` against itself, and `product 1` against the
umbrella `products` key. -/
theorem queries_key_witness :
    (keyOf (QueryFamily.productWish (Ident.n 1))
      = keyOf (QueryFamily.productWish (Ident.n 1))) ∧
    (keyOf (QueryFamily.product (Ident.n 1)) = keyOf QueryFamily.products ↔
      QueryFamily.product (Ident.n 1) = QueryFamily.products) :=
  ⟨queries_key_deterministic_injective.1 _,
   queries_key_deterministic_injective.2 _ _⟩
